import Mathlib

/-!
Verification of the MountainPeak Insurance monitoring dashboards.

The embedding follows the two dashboard scripts:
* `01_DATA_QUALITY_DASHBOARD.py` — DMF quality classification (a SQL CASE
  over metric name and value), the aggregate portfolio score, freshness
  bucketing, the refresh controls and the pipeline-health recommendations.
* `02_RISK_ANALYTICS_DASHBOARD.py` — the risk-overview aggregate and the
  high-risk percentage computed from it.

The TTL query-result cache used by both scripts is provided by the hosting
framework (`st.cache_data`) and its implementation is not part of the
repository; it is modelled from the spec's contract (§4.1).
-/

/-- One SQL LIKE pattern character against one name character: `_` is the
one-character wildcard and matches any character; every other character
matches only itself.  (The source's patterns contain no `ESCAPE` clause.) -/
def likeCharMatches (p c : Char) : Bool :=
  p == '_' || p == c

/-- Char-wise LIKE matching of a wildcard-free-except-`_` pattern against a
name fragment of the same length; fails on a length mismatch. -/
def likeChars : List Char → List Char → Bool
  | [], [] => true
  | p :: ps, c :: cs => likeCharMatches p c && likeChars ps cs
  | _, _ => false

/-- SQL `LIKE '%pat'` where `pat` contains no `%`: the name is at least as
long as the pattern and its last `pat.length` characters match the pattern
char-wise, with `_` a one-character wildcard. -/
def likeEndsWith (s pat : String) : Bool :=
  likeChars pat.data.reverse (s.data.reverse.take pat.data.length)

/-- SQL `LIKE 'pat%'` where `pat` contains no `%`: the name is at least as
long as the pattern and its first `pat.length` characters match the pattern
char-wise, with `_` a one-character wildcard. -/
def likeStartsWith (s pat : String) : Bool :=
  likeChars pat.data (s.data.take pat.data.length)

/-! ## Quality-status and check-type classification

Embedding of the SQL CASE expressions in `get_dmf_results`
(`01_DATA_QUALITY_DASHBOARD.py`, lines 83-102).  A CASE evaluates its
WHEN branches top to bottom, which the if-chain reproduces. -/

inductive QualityStatus where
  | EXCELLENT
  | GOOD
  | FAIR
  | NEEDS_ATTENTION
  | MONITORING
deriving DecidableEq, BEq

/-- The `quality_status` column of `get_dmf_results`: the SQL CASE on
`metric_name` and `value` (lines 83-95 of `01_DATA_QUALITY_DASHBOARD.py`),
one if-branch per WHEN clause, in source order. -/
def quality_status (metric_name : String) (value : Int) : QualityStatus :=
  if likeEndsWith metric_name "NULL_COUNT" ∧ value = 0 then QualityStatus.EXCELLENT
  else if likeEndsWith metric_name "NULL_COUNT" ∧ value ≤ 5 then QualityStatus.GOOD
  else if likeEndsWith metric_name "NULL_COUNT" ∧ value ≤ 20 then QualityStatus.FAIR
  else if likeEndsWith metric_name "NULL_COUNT" then QualityStatus.NEEDS_ATTENTION
  else if likeEndsWith metric_name "DUPLICATE_COUNT" ∧ value = 0 then QualityStatus.EXCELLENT
  else if likeEndsWith metric_name "DUPLICATE_COUNT" ∧ value ≤ 2 then QualityStatus.GOOD
  else if likeEndsWith metric_name "DUPLICATE_COUNT" then QualityStatus.NEEDS_ATTENTION
  else if likeStartsWith metric_name "INVALID_" ∧ value = 0 then QualityStatus.EXCELLENT
  else if likeStartsWith metric_name "INVALID_" ∧ value ≤ 3 then QualityStatus.GOOD
  else if likeStartsWith metric_name "INVALID_" then QualityStatus.NEEDS_ATTENTION
  else QualityStatus.MONITORING

inductive CheckType where
  | Completeness
  | Uniqueness
  | Validity
  | Volume
  | Other
deriving DecidableEq, BEq

/-- The `check_type` column of `get_dmf_results`: the SQL CASE on
`metric_name` (lines 96-102 of `01_DATA_QUALITY_DASHBOARD.py`). -/
def check_type (metric_name : String) : CheckType :=
  if likeEndsWith metric_name "NULL_COUNT" then CheckType.Completeness
  else if likeEndsWith metric_name "DUPLICATE_COUNT" then CheckType.Uniqueness
  else if likeStartsWith metric_name "INVALID_" then CheckType.Validity
  else if metric_name = "ROW_COUNT" then CheckType.Volume
  else CheckType.Other

/-! ## Freshness bucketing

Embedding of the `data_freshness` CASE in `get_pipeline_status`
(lines 138-143): minutes since load, bucketed ≤30 / ≤120 / else. -/

inductive FreshnessStatus where
  | FRESH
  | ACCEPTABLE
  | STALE
deriving DecidableEq, BEq

/-- `FRESHNESS_STATUS` as computed by the `data_freshness` query: a CASE on
`DATEDIFF('MINUTE', MAX(LOAD_TIMESTAMP), CURRENT_TIMESTAMP())`. -/
def freshness_status (minutes_since_load : Int) : FreshnessStatus :=
  if minutes_since_load ≤ 30 then FreshnessStatus.FRESH
  else if minutes_since_load ≤ 120 then FreshnessStatus.ACCEPTABLE
  else FreshnessStatus.STALE

/-! ## Aggregate portfolio score

Embedding of the `overall_score` / `quality_rating` block
(lines 236-252 of `01_DATA_QUALITY_DASHBOARD.py`).  A collection of
classified rows is modelled by its list of `quality_status` values. -/

/-- `len(dmf_data[dmf_data['quality_status'] == 'EXCELLENT'])`. -/
def excellent_count (rows : List QualityStatus) : Nat :=
  (rows.filter (· == QualityStatus.EXCELLENT)).length

/-- `len(dmf_data[dmf_data['quality_status'] == 'GOOD'])`. -/
def good_count (rows : List QualityStatus) : Nat :=
  (rows.filter (· == QualityStatus.GOOD)).length

/-- `len(dmf_data[dmf_data['quality_status'] == 'NEEDS ATTENTION'])`. -/
def needs_attention_count (rows : List QualityStatus) : Nat :=
  (rows.filter (· == QualityStatus.NEEDS_ATTENTION)).length

/-- `overall_score`: initialised to 0 and recomputed as the weighted pass
rate whenever the DMF result set is non-empty (`total_checks > 0` then
holds, since `total_checks = len(dmf_data)`). -/
def overall_score (rows : List QualityStatus) : ℚ :=
  if 0 < rows.length then
    ((excellent_count rows : ℚ) * 100 + (good_count rows : ℚ) * 85) / (rows.length : ℚ)
  else 0

inductive QualityRating where
  | EXCELLENT
  | GOOD
  | FAIR
  | NEEDS_ATTENTION
  | NO_DATA
deriving DecidableEq, BEq

/-- `quality_rating`: `"NO DATA"` until the DMF result set is non-empty,
then bucketed from `overall_score` at ≥95 / ≥85 / ≥70 / else. -/
def quality_rating (rows : List QualityStatus) : QualityRating :=
  if 0 < rows.length then
    if 95 ≤ overall_score rows then QualityRating.EXCELLENT
    else if 85 ≤ overall_score rows then QualityRating.GOOD
    else if 70 ≤ overall_score rows then QualityRating.FAIR
    else QualityRating.NEEDS_ATTENTION
  else QualityRating.NO_DATA

/-- C1: the quality status of a row is the spec's static threshold table —
read top to bottom, as both the spec's bullet list and the SQL CASE are —
applied to the metric name and the value: null-count metrics bucket at
0 / ≤5 / ≤20 / else, duplicate-count metrics at 0 / ≤2 / else,
invalid-value metrics at 0 / ≤3 / else, and any other name is MONITORING. -/
theorem quality_status_matches_threshold_table (metric_name : String) (value : Int) :
    (likeEndsWith metric_name "NULL_COUNT" = true →
       ((value = 0 → quality_status metric_name value = QualityStatus.EXCELLENT)
      ∧ (0 < value → value ≤ 5 → quality_status metric_name value = QualityStatus.GOOD)
      ∧ (5 < value → value ≤ 20 → quality_status metric_name value = QualityStatus.FAIR)
      ∧ (20 < value → quality_status metric_name value = QualityStatus.NEEDS_ATTENTION)))
  ∧ (likeEndsWith metric_name "NULL_COUNT" = false →
     likeEndsWith metric_name "DUPLICATE_COUNT" = true →
       ((value = 0 → quality_status metric_name value = QualityStatus.EXCELLENT)
      ∧ (0 < value → value ≤ 2 → quality_status metric_name value = QualityStatus.GOOD)
      ∧ (2 < value → quality_status metric_name value = QualityStatus.NEEDS_ATTENTION)))
  ∧ (likeEndsWith metric_name "NULL_COUNT" = false →
     likeEndsWith metric_name "DUPLICATE_COUNT" = false →
     likeStartsWith metric_name "INVALID_" = true →
       ((value = 0 → quality_status metric_name value = QualityStatus.EXCELLENT)
      ∧ (0 < value → value ≤ 3 → quality_status metric_name value = QualityStatus.GOOD)
      ∧ (3 < value → quality_status metric_name value = QualityStatus.NEEDS_ATTENTION)))
  ∧ (likeEndsWith metric_name "NULL_COUNT" = false →
     likeEndsWith metric_name "DUPLICATE_COUNT" = false →
     likeStartsWith metric_name "INVALID_" = false →
       quality_status metric_name value = QualityStatus.MONITORING) := by
  refine ⟨?_, ?_, ?_, ?_⟩
  · intro h1
    refine ⟨?_, ?_, ?_, ?_⟩ <;> intros <;>
      simp [quality_status, h1] <;> split_ifs <;> first | rfl | omega
  · intro h1 h2
    refine ⟨?_, ?_, ?_⟩ <;> intros <;>
      simp [quality_status, h1, h2] <;> split_ifs <;> first | rfl | omega
  · intro h1 h2 h3
    refine ⟨?_, ?_, ?_⟩ <;> intros <;>
      simp [quality_status, h1, h2, h3] <;> split_ifs <;> first | rfl | omega
  · intro h1 h2 h3
    simp [quality_status, h1, h2, h3]

/-- Witness for C1: the null-count row `("CLAIMS_RAW.NULL_COUNT", 7)` falls
in the 5 < v ≤ 20 bucket and classifies FAIR. -/
theorem quality_status_matches_threshold_table_witness :
    quality_status "CLAIMS_RAW.NULL_COUNT" 7 = QualityStatus.FAIR :=
  ((quality_status_matches_threshold_table "CLAIMS_RAW.NULL_COUNT" 7).1
    (by decide)).2.2.1 (by decide) (by decide)

/-- C6: freshness bucketing is boundary-inclusive on the lower side:
m ≤ 30 is FRESH, 30 < m ≤ 120 is ACCEPTABLE, m > 120 is STALE; in
particular 30 ↦ FRESH, 31 ↦ ACCEPTABLE, 120 ↦ ACCEPTABLE, 121 ↦ STALE. -/
theorem freshness_status_boundaries (m : Int) :
    (m ≤ 30 → freshness_status m = FreshnessStatus.FRESH)
  ∧ (30 < m → m ≤ 120 → freshness_status m = FreshnessStatus.ACCEPTABLE)
  ∧ (120 < m → freshness_status m = FreshnessStatus.STALE)
  ∧ freshness_status 30 = FreshnessStatus.FRESH
  ∧ freshness_status 31 = FreshnessStatus.ACCEPTABLE
  ∧ freshness_status 120 = FreshnessStatus.ACCEPTABLE
  ∧ freshness_status 121 = FreshnessStatus.STALE := by
  refine ⟨?_, ?_, ?_, by decide, by decide, by decide, by decide⟩ <;>
    intros <;> unfold freshness_status <;> split_ifs <;> first | rfl | omega

/-- Witness for C6: 45 minutes since load is in the 30 < m ≤ 120 bucket,
hence ACCEPTABLE. -/
theorem freshness_status_boundaries_witness :
    freshness_status 45 = FreshnessStatus.ACCEPTABLE :=
  (freshness_status_boundaries 45).2.1 (by decide) (by decide)

/-- C8: the check type is a pure function of the metric name, read down the
same ordered table as the SQL CASE: a name ending in NULL_COUNT is
Completeness, else one ending in DUPLICATE_COUNT is Uniqueness, else one
starting with INVALID_ is Validity, else the exact name ROW_COUNT is
Volume, else Other; and the row ("CLAIMS_RAW.NULL_COUNT", 3) classifies as
status GOOD with check type Completeness. -/
theorem check_type_pure_function_of_name (metric_name : String) :
    (likeEndsWith metric_name "NULL_COUNT" = true →
       check_type metric_name = CheckType.Completeness)
  ∧ (likeEndsWith metric_name "NULL_COUNT" = false →
     likeEndsWith metric_name "DUPLICATE_COUNT" = true →
       check_type metric_name = CheckType.Uniqueness)
  ∧ (likeEndsWith metric_name "NULL_COUNT" = false →
     likeEndsWith metric_name "DUPLICATE_COUNT" = false →
     likeStartsWith metric_name "INVALID_" = true →
       check_type metric_name = CheckType.Validity)
  ∧ (metric_name = "ROW_COUNT" → check_type metric_name = CheckType.Volume)
  ∧ (likeEndsWith metric_name "NULL_COUNT" = false →
     likeEndsWith metric_name "DUPLICATE_COUNT" = false →
     likeStartsWith metric_name "INVALID_" = false →
     metric_name ≠ "ROW_COUNT" →
       check_type metric_name = CheckType.Other)
  ∧ quality_status "CLAIMS_RAW.NULL_COUNT" 3 = QualityStatus.GOOD
  ∧ check_type "CLAIMS_RAW.NULL_COUNT" = CheckType.Completeness := by
  refine ⟨?_, ?_, ?_, ?_, ?_, by decide, by decide⟩
  · intro h1
    simp [check_type, h1]
  · intro h1 h2
    simp [check_type, h1, h2]
  · intro h1 h2 h3
    simp [check_type, h1, h2, h3]
  · intro h
    subst h
    decide
  · intro h1 h2 h3 h4
    simp [check_type, h1, h2, h3, h4]

/-- Witness for C8: `INVALID_CLAIM_AMOUNT_COUNT` is a Validity check. -/
theorem check_type_pure_function_of_name_witness :
    check_type "INVALID_CLAIM_AMOUNT_COUNT" = CheckType.Validity :=
  (check_type_pure_function_of_name "INVALID_CLAIM_AMOUNT_COUNT").2.2.1
    (by decide) (by decide) (by decide)

/-- C2: for a non-empty collection of classified rows the overall portfolio
score is the weighted pass rate `(excellent*100 + good*85) / total`, the
rating buckets it at ≥95 / ≥85 / ≥70 / else, and the four rows
[EXCELLENT, EXCELLENT, GOOD, NEEDS ATTENTION] score 71.25, rated FAIR. -/
theorem overall_score_formula_and_rating (rows : List QualityStatus)
    (h : 0 < rows.length) :
    overall_score rows =
      ((excellent_count rows : ℚ) * 100 + (good_count rows : ℚ) * 85) / (rows.length : ℚ)
  ∧ (quality_rating rows = QualityRating.EXCELLENT ↔ 95 ≤ overall_score rows)
  ∧ (quality_rating rows = QualityRating.GOOD ↔
       85 ≤ overall_score rows ∧ overall_score rows < 95)
  ∧ (quality_rating rows = QualityRating.FAIR ↔
       70 ≤ overall_score rows ∧ overall_score rows < 85)
  ∧ (quality_rating rows = QualityRating.NEEDS_ATTENTION ↔ overall_score rows < 70)
  ∧ overall_score [QualityStatus.EXCELLENT, QualityStatus.EXCELLENT,
       QualityStatus.GOOD, QualityStatus.NEEDS_ATTENTION] = 71.25
  ∧ quality_rating [QualityStatus.EXCELLENT, QualityStatus.EXCELLENT,
       QualityStatus.GOOD, QualityStatus.NEEDS_ATTENTION] = QualityRating.FAIR := by
  have hs : quality_rating rows =
      (if 95 ≤ overall_score rows then QualityRating.EXCELLENT
       else if 85 ≤ overall_score rows then QualityRating.GOOD
       else if 70 ≤ overall_score rows then QualityRating.FAIR
       else QualityRating.NEEDS_ATTENTION) := by
    unfold quality_rating
    rw [if_pos h]
  have hc1 : excellent_count [QualityStatus.EXCELLENT, QualityStatus.EXCELLENT,
      QualityStatus.GOOD, QualityStatus.NEEDS_ATTENTION] = 2 := rfl
  have hc2 : good_count [QualityStatus.EXCELLENT, QualityStatus.EXCELLENT,
      QualityStatus.GOOD, QualityStatus.NEEDS_ATTENTION] = 1 := rfl
  have hsc : overall_score [QualityStatus.EXCELLENT, QualityStatus.EXCELLENT,
      QualityStatus.GOOD, QualityStatus.NEEDS_ATTENTION] = 71.25 := by
    rw [overall_score]
    norm_num [hc1, hc2]
  have hrat : quality_rating [QualityStatus.EXCELLENT, QualityStatus.EXCELLENT,
      QualityStatus.GOOD, QualityStatus.NEEDS_ATTENTION] = QualityRating.FAIR := by
    rw [quality_rating, hsc]
    norm_num
  refine ⟨by rw [overall_score, if_pos h], ?_, ?_, ?_, ?_, hsc, hrat⟩ <;>
    rw [hs] <;> split_ifs with h1 h2 h3 <;> simp_all <;> intros <;> linarith

/-- Witness for C2: the spec's four-row scenario is non-empty and rates FAIR. -/
theorem overall_score_formula_and_rating_witness :
    quality_rating [QualityStatus.EXCELLENT, QualityStatus.EXCELLENT,
      QualityStatus.GOOD, QualityStatus.NEEDS_ATTENTION] = QualityRating.FAIR :=
  (overall_score_formula_and_rating
    [QualityStatus.EXCELLENT, QualityStatus.EXCELLENT,
     QualityStatus.GOOD, QualityStatus.NEEDS_ATTENTION]
    (by decide)).2.2.2.2.2.2

/-! ## The TTL query-result cache

Both dashboards memoize their query functions with `@st.cache_data(ttl=…)`
(`01_DATA_QUALITY_DASHBOARD.py` lines 52, 64, 119, 160;
`02_RISK_ANALYTICS_DASHBOARD.py` lines 86, 151).  The cache implementation
lives in the hosting framework, not in this repository, so it is modelled
from the spec's §4.1 contract. -/

/-- Modelled from the spec: the cache state of the framework-provided query
result cache (`st.cache_data`), absent from the repository — a map from key
to a cached result paired with the time `cached_at` it was stored. -/
def Cache (κ α : Type) : Type :=
  κ → Option (α × Nat)

/-- Modelled from the spec: storing `(result, now)` under `key` in the
framework-provided cache, absent from the repository. -/
def cache_store {κ α : Type} [DecidableEq κ] (c : Cache κ α) (key : κ)
    (result : α) (now : Nat) : Cache κ α :=
  fun k => if k = key then some (result, now) else c k

/-- Modelled from the spec: `get_or_fetch(key, ttl_seconds, fetch_fn)` of
the framework-provided cache (`st.cache_data`), absent from the repository.
If a cached value exists for `key` and `now - cached_at < ttl_seconds`,
return it; otherwise invoke `fetch_fn`, store `(result, now)`, and return
the result; if `fetch_fn` raises, the failure propagates and nothing is
cached.  Returns the outcome, the new cache state, and whether `fetch_fn`
was invoked. -/
def get_or_fetch {κ α ε : Type} [DecidableEq κ] (c : Cache κ α) (key : κ)
    (ttl_seconds now : Nat) (fetch_fn : Except ε α) :
    Except ε α × Cache κ α × Bool :=
  match c key with
  | some (v, cached_at) =>
    if now - cached_at < ttl_seconds then (Except.ok v, c, false)
    else
      match fetch_fn with
      | Except.ok r => (Except.ok r, cache_store c key r now, true)
      | Except.error e => (Except.error e, c, true)
  | none =>
    match fetch_fn with
    | Except.ok r => (Except.ok r, cache_store c key r now, true)
    | Except.error e => (Except.error e, c, true)

/-- C3: when the fetch is actually invoked (no live entry for the key) and
it fails, the failure propagates to the caller, the cache is unchanged (no
negative caching), and a subsequent same-key call — even within the TTL
window — invokes the fetch again. -/
theorem cache_no_negative_caching {κ α ε : Type} [DecidableEq κ]
    (c : Cache κ α) (key : κ) (ttl now now2 : Nat) (e : ε) (f2 : Except ε α)
    (hmiss : c key = none ∨ ∃ v t, c key = some (v, t) ∧ ¬(now - t < ttl))
    (hmono : now ≤ now2) :
    (get_or_fetch c key ttl now (Except.error e)).1 = Except.error e
  ∧ (get_or_fetch c key ttl now (Except.error e)).2.1 = c
  ∧ (get_or_fetch ((get_or_fetch c key ttl now (Except.error e)).2.1)
       key ttl now2 f2).2.2 = true := by
  rcases hmiss with hnone | ⟨v, t, hsome, hexp⟩
  · refine ⟨?_, ?_, ?_⟩
    · simp only [get_or_fetch, hnone]
    · simp only [get_or_fetch, hnone]
    · simp only [get_or_fetch, hnone]
      cases f2 <;> rfl
  · have hexp2 : ¬(now2 - t < ttl) := by omega
    refine ⟨?_, ?_, ?_⟩
    · simp only [get_or_fetch, hsome, if_neg hexp]
    · simp only [get_or_fetch, hsome, if_neg hexp]
    · simp only [get_or_fetch, hsome, if_neg hexp, if_neg hexp2]
      cases f2 <;> rfl

/-- Witness for C3: on an empty cache a failing fetch returns the error,
leaves the cache empty, and the retry fetches again. -/
theorem cache_no_negative_caching_witness :
    (get_or_fetch (fun _ => none : Cache Nat Nat) 0 30 100
       (Except.error "boom")).1 = Except.error "boom"
  ∧ (get_or_fetch (fun _ => none : Cache Nat Nat) 0 30 100
       (Except.error "boom")).2.1 = (fun _ => none : Cache Nat Nat)
  ∧ (get_or_fetch ((get_or_fetch (fun _ => none : Cache Nat Nat) 0 30 100
       (Except.error "boom")).2.1) 0 30 110
       (Except.ok 7 : Except String Nat)).2.2 = true :=
  cache_no_negative_caching (fun _ => none) 0 30 100 110 "boom"
    (Except.ok 7 : Except String Nat) (Or.inl rfl) (by omega)

/-- C5: a call finding a live entry (age strictly below the TTL) returns
the cached result without invoking the fetch; a call finding no entry, or
an expired one, invokes the fetch exactly once, stores `(result, now)` and
returns the result; hence two same-key calls within the TTL window invoke
the fetch once and the second returns the identical cached object, while a
call after TTL expiry invokes the fetch again. -/
theorem cache_ttl_hit_miss_semantics {κ α ε : Type} [DecidableEq κ]
    (c : Cache κ α) (key : κ) (ttl now now2 now3 : Nat)
    (v r r2 : α) (cached_at : Nat) (f f2 : Except ε α) :
    (c key = some (v, cached_at) → now - cached_at < ttl →
       get_or_fetch c key ttl now f = (Except.ok v, c, false))
  ∧ (c key = none →
       get_or_fetch c key ttl now (Except.ok r : Except ε α)
         = (Except.ok r, cache_store c key r now, true))
  ∧ (c key = some (v, cached_at) → ¬(now - cached_at < ttl) →
       get_or_fetch c key ttl now (Except.ok r : Except ε α)
         = (Except.ok r, cache_store c key r now, true))
  ∧ (c key = none → now2 - now < ttl → ttl ≤ now3 - now →
       (get_or_fetch ((get_or_fetch c key ttl now
            (Except.ok r : Except ε α)).2.1)
          key ttl now2 f2)
         = (Except.ok r,
            (get_or_fetch c key ttl now (Except.ok r : Except ε α)).2.1, false)
     ∧ (get_or_fetch ((get_or_fetch c key ttl now
            (Except.ok r : Except ε α)).2.1)
          key ttl now3 (Except.ok r2 : Except ε α)).2.2 = true) := by
  refine ⟨?_, ?_, ?_, ?_⟩
  · intro hsome hlive
    simp only [get_or_fetch, hsome, if_pos hlive]
  · intro hnone
    simp only [get_or_fetch, hnone]
  · intro hsome hexp
    simp only [get_or_fetch, hsome, if_neg hexp]
  · intro hnone hlive hexp
    have hCache : (get_or_fetch c key ttl now (Except.ok r : Except ε α)).2.1
        = cache_store c key r now := by
      simp [get_or_fetch, hnone]
    have hstore : cache_store c key r now key = some (r, now) := by
      simp [cache_store]
    rw [hCache]
    have hexp3 : ¬(now3 - now < ttl) := by omega
    constructor
    · simp [get_or_fetch, hstore, hlive]
    · simp [get_or_fetch, hstore, hexp3]

/-- Witness for C5: a concrete three-call run — miss, hit within the TTL,
miss again after expiry — with key 0, TTL 30, at times 100/110/200. -/
theorem cache_ttl_hit_miss_semantics_witness :
    (get_or_fetch (fun _ => none : Cache Nat Nat) 0 30 100
        (Except.ok 5 : Except String Nat)
      = (Except.ok 5, cache_store (fun _ => none) 0 5 100, true))
  ∧ ((get_or_fetch ((get_or_fetch (fun _ => none : Cache Nat Nat) 0 30 100
        (Except.ok 5 : Except String Nat)).2.1) 0 30 110
        (Except.ok 6 : Except String Nat))
      = (Except.ok 5,
         (get_or_fetch (fun _ => none : Cache Nat Nat) 0 30 100
           (Except.ok 5 : Except String Nat)).2.1,
         false)
    ∧ (get_or_fetch ((get_or_fetch (fun _ => none : Cache Nat Nat) 0 30 100
        (Except.ok 5 : Except String Nat)).2.1) 0 30 200
        (Except.ok 9 : Except String Nat)).2.2 = true) :=
  ⟨(cache_ttl_hit_miss_semantics (fun _ => none) 0 30 100 110 200 5 5 9
      0 (Except.ok 5 : Except String Nat) (Except.ok 6 : Except String Nat)).2.1 rfl,
   (cache_ttl_hit_miss_semantics (fun _ => none) 0 30 100 110 200 5 5 9
      0 (Except.ok 5 : Except String Nat) (Except.ok 6 : Except String Nat)).2.2.2 rfl
      (by omega) (by omega)⟩

/-! ## Refresh controls

Embedding of the auto-refresh block of `01_DATA_QUALITY_DASHBOARD.py`
(lines 209-222).  `st.rerun()` halts the current script run, so a pressed
refresh button clears the cache and reruns before the auto-refresh block
is reached; the auto-refresh path sleeps 30 seconds and reruns. -/

inductive UiAction where
  | clearCache
  | rerun
  | sleep (seconds : Nat)
deriving DecidableEq

/-- The sequence of cache/rerun actions the script performs on one run of
the refresh-control section, as a function of the refresh-button state and
the auto-refresh checkbox: the button branch (lines 213-215) runs
`st.cache_data.clear()` then `st.rerun()`; the auto-refresh branch
(lines 220-222) runs `time.sleep(30)` then `st.rerun()` with no clear. -/
def refresh_control_actions (buttonPressed autoRefresh : Bool) : List UiAction :=
  if buttonPressed then [UiAction.clearCache, UiAction.rerun]
  else if autoRefresh then [UiAction.sleep 30, UiAction.rerun]
  else []

/-- C4 counterexample: the timer-driven transition into Refreshing
(auto-refresh enabled, no button press) re-renders without first clearing
the cache — the action list contains a rerun but no cache clear. -/
theorem auto_refresh_rerun_without_cache_clear :
    UiAction.rerun ∈ refresh_control_actions false true
  ∧ UiAction.clearCache ∉ refresh_control_actions false true := by
  decide

/-- C4 as amended: a manual refresh-button press clears the cache before
re-rendering, but the 30-second timer path with auto-refresh enabled only
sleeps and re-renders, relying on TTL expiry instead of an explicit clear;
with neither trigger there is no re-render. -/
theorem refresh_trigger_actions (buttonPressed autoRefresh : Bool) :
    (buttonPressed = true →
       refresh_control_actions buttonPressed autoRefresh
         = [UiAction.clearCache, UiAction.rerun])
  ∧ (buttonPressed = false → autoRefresh = true →
       refresh_control_actions buttonPressed autoRefresh
         = [UiAction.sleep 30, UiAction.rerun])
  ∧ (buttonPressed = false → autoRefresh = false →
       refresh_control_actions buttonPressed autoRefresh = []) := by
  refine ⟨?_, ?_, ?_⟩
  · rintro rfl
    rfl
  · rintro rfl rfl
    rfl
  · rintro rfl rfl
    rfl

/-- Witness for the amended C4: a button press with auto-refresh on clears
then reruns. -/
theorem refresh_trigger_actions_witness :
    refresh_control_actions true true = [UiAction.clearCache, UiAction.rerun] :=
  (refresh_trigger_actions true true).1 rfl

/-! ## Warehouse connections

`get_connection` (lines 52-62 of `01_DATA_QUALITY_DASHBOARD.py`) is itself
decorated `@st.cache_data(ttl=60)`, so the connection object it returns is
memoized for 60 seconds and handed to every data-fetch function that calls
it in that window.  Connections are modelled by numeric identities; a fresh
identity stands for the newly opened connection the body would create. -/

/-- `get_connection` as called by the data-fetch functions: the 60-second
TTL result cache (`@st.cache_data(ttl=60)`, line 52) wrapped around a body
that returns a connection (or `none` when connecting fails, line 62). -/
def get_connection_cached (c : Cache Unit (Option Nat)) (now : Nat)
    (fresh : Option Nat) :
    Except Empty (Option Nat) × Cache Unit (Option Nat) × Bool :=
  get_or_fetch c () 60 now (Except.ok fresh)

inductive FetchEvent where
  | acquireConn (connId : Nat)
  | runQuery
  | closeConn
deriving DecidableEq

/-- Resource events of one `get_dmf_results` call (lines 65-117): obtain a
connection from `get_connection`; if it is None return an empty result
immediately; otherwise run the query and close the connection, both on
success (line 112) and on error (line 116). -/
def get_dmf_results_events (conn : Option Nat) (querySucceeds : Bool) :
    List FetchEvent :=
  match conn with
  | none => []
  | some cid =>
    if querySucceeds then
      [FetchEvent.acquireConn cid, FetchEvent.runQuery, FetchEvent.closeConn]
    else
      [FetchEvent.acquireConn cid, FetchEvent.runQuery, FetchEvent.closeConn]

/-- C7 counterexample: two data-fetch operations 10 seconds apart both call
the cached `get_connection`; the second receives the very connection object
of the first (and does not open a new one), so a single connection object
is shared across distinct data-fetch operations. -/
theorem connection_shared_across_fetches :
    (get_connection_cached (fun _ => none) 0 (some 0)).1 = Except.ok (some 0)
  ∧ (get_connection_cached
       ((get_connection_cached (fun _ => none) 0 (some 0)).2.1)
       10 (some 1)).1 = Except.ok (some 0)
  ∧ (get_connection_cached
       ((get_connection_cached (fun _ => none) 0 (some 0)).2.1)
       10 (some 1)).2.2 = false :=
  ⟨rfl, rfl, rfl⟩

/-- C7 as amended: each data-fetch that obtains a connection explicitly
closes it after use or on error, but `get_connection` is memoized with a
60-second TTL, so a data-fetch within 60 seconds of a prior one reuses the
same connection object instead of opening a new one. -/
theorem connection_closed_but_reused (cid : Nat) (querySucceeds : Bool)
    (c : Cache Unit (Option Nat)) (v fresh : Option Nat) (t now : Nat)
    (hhit : c () = some (v, t)) (hlive : now - t < 60) :
    FetchEvent.closeConn ∈ get_dmf_results_events (some cid) querySucceeds
  ∧ get_connection_cached c now fresh = (Except.ok v, c, false) := by
  constructor
  · cases querySucceeds <;> simp [get_dmf_results_events]
  · simp only [get_connection_cached, get_or_fetch, hhit, if_pos hlive]

/-- Witness for the amended C7: a cache holding connection 3 stored at
time 0, read again at time 10. -/
theorem connection_closed_but_reused_witness :
    FetchEvent.closeConn ∈ get_dmf_results_events (some 3) true
  ∧ get_connection_cached (fun _ => some (some 3, 0)) 10 (some 4)
      = (Except.ok (some 3), fun _ => some (some 3, 0), false) :=
  connection_closed_but_reused 3 true (fun _ => some (some 3, 0))
    (some 3) (some 4) 0 10 rfl (by omega)

/-! ## Pipeline-health recommendations

Embedding of the recommendations block of `01_DATA_QUALITY_DASHBOARD.py`
(lines 509-536), run when pipeline data is present.  The freshness input
models the first row of the `data_freshness` result (`none` when that
result is empty); the function inputs model the `schedule_status` column
of the active-DMF-functions result. -/

def dmf_attention_recommendation (n : Nat) : String :=
  "🔍 " ++ toString n ++ " DMF checks need attention - investigate data quality issues"

def stale_recommendation : String :=
  "⏰ Data pipeline may need attention - last update was over 2 hours ago"

def stopped_functions_recommendation (n : Nat) : String :=
  "⚙️ " ++ toString n ++ " DMF functions are not running - check monitoring schedule"

def low_score_recommendation : String :=
  "📊 Overall DMF quality score is below optimal - review data ingestion processes"

def all_clear_recommendation : String :=
  "✅ Pipeline is running optimally with excellent DMF monitoring - continue monitoring"

/-- `len(stopped_functions)`: the DMF functions whose `schedule_status` is
not `'STARTED'` (line 524). -/
def stopped_count (funcs : List String) : Nat :=
  (funcs.filter (fun s => s != "STARTED")).length

/-- The recommendation list assembled at lines 510-533: one entry per
triggered check (needs-attention DMF rows, stale freshness, stopped DMF
functions, sub-optimal overall score), or the all-clear entry when none
triggered. -/
def pipeline_recommendations (dmf : List QualityStatus)
    (freshness : Option FreshnessStatus) (funcs : List String) : List String :=
  let recs :=
    (if dmf ≠ [] ∧ 0 < needs_attention_count dmf then
       [dmf_attention_recommendation (needs_attention_count dmf)] else [])
    ++ (if freshness = some FreshnessStatus.STALE then [stale_recommendation] else [])
    ++ (if funcs ≠ [] ∧ 0 < stopped_count funcs then
         [stopped_functions_recommendation (stopped_count funcs)] else [])
    ++ (if overall_score dmf < 85 then [low_score_recommendation] else [])
  if recs.length = 0 then [all_clear_recommendation] else recs

/-- C9: a load timestamp 150 minutes in the past buckets as STALE, and
whenever the freshness status is STALE the rendered recommendations include
the "pipeline may need attention" entry, whatever the DMF rows and DMF
function statuses are. -/
theorem stale_triggers_attention_recommendation (dmf : List QualityStatus)
    (funcs : List String) :
    freshness_status 150 = FreshnessStatus.STALE
  ∧ stale_recommendation ∈
      pipeline_recommendations dmf (some FreshnessStatus.STALE) funcs := by
  refine ⟨by decide, ?_⟩
  unfold pipeline_recommendations
  split_ifs <;> simp_all [List.mem_append]

/-! ## Risk overview and the high-risk percentage

Embedding of the `risk_overview` query of `02_RISK_ANALYTICS_DASHBOARD.py`
(lines 94-104) and the `high_pct` computation (line 242).  The
RISK_SCORE_MATRIX table is modelled by the list of its rows' risk levels;
an aggregate query without GROUP BY always yields exactly one row, which
the total function `risk_overview` reflects. -/

inductive RiskLevel where
  | HIGH
  | MEDIUM
  | LOW
deriving DecidableEq, BEq

structure RiskOverview where
  TOTAL_CUSTOMERS : Nat
  HIGH_RISK_COUNT : Nat
  MEDIUM_RISK_COUNT : Nat
  LOW_RISK_COUNT : Nat
deriving DecidableEq

/-- The single row returned by the risk-overview query: `COUNT(*)` and the
per-level conditional counts over RISK_SCORE_MATRIX. -/
def risk_overview (rows : List RiskLevel) : RiskOverview :=
  { TOTAL_CUSTOMERS := rows.length
    HIGH_RISK_COUNT := (rows.filter (· == RiskLevel.HIGH)).length
    MEDIUM_RISK_COUNT := (rows.filter (· == RiskLevel.MEDIUM)).length
    LOW_RISK_COUNT := (rows.filter (· == RiskLevel.LOW)).length }

/-- `high_pct = overview['HIGH_RISK_COUNT'] / overview['TOTAL_CUSTOMERS'] * 100`
(line 242), with no guard on the denominator: division by a zero
TOTAL_CUSTOMERS is a runtime failure, modelled as `none`. -/
def high_pct (o : RiskOverview) : Option ℚ :=
  if o.TOTAL_CUSTOMERS = 0 then none
  else some ((o.HIGH_RISK_COUNT : ℚ) / (o.TOTAL_CUSTOMERS : ℚ) * 100)

/-- C10: the high-risk share is HIGH_RISK_COUNT / TOTAL_CUSTOMERS * 100 and
is defined exactly under the precondition TOTAL_CUSTOMERS > 0; an empty
RISK_SCORE_MATRIX still produces one overview row, with COUNT(*) = 0, on
which the division is undefined. -/
theorem high_pct_requires_customers (rows : List RiskLevel) :
    (0 < (risk_overview rows).TOTAL_CUSTOMERS →
       high_pct (risk_overview rows)
         = some (((risk_overview rows).HIGH_RISK_COUNT : ℚ)
             / ((risk_overview rows).TOTAL_CUSTOMERS : ℚ) * 100))
  ∧ (risk_overview ([] : List RiskLevel)).TOTAL_CUSTOMERS = 0
  ∧ high_pct (risk_overview ([] : List RiskLevel)) = none := by
  refine ⟨?_, rfl, rfl⟩
  intro h
  rw [high_pct, if_neg (by omega)]

/-- Witness for C10: a two-customer portfolio with one HIGH row has a
defined high-risk share of 50%. -/
theorem high_pct_requires_customers_witness :
    high_pct (risk_overview [RiskLevel.HIGH, RiskLevel.LOW])
      = some (((risk_overview [RiskLevel.HIGH, RiskLevel.LOW]).HIGH_RISK_COUNT : ℚ)
          / ((risk_overview [RiskLevel.HIGH, RiskLevel.LOW]).TOTAL_CUSTOMERS : ℚ) * 100) :=
  (high_pct_requires_customers [RiskLevel.HIGH, RiskLevel.LOW]).1 (by decide)
